import Mathlib

/-!
Shallow embedding of the expense-tracker data/business-logic layer
(src/app.py).  The SQLite tables are modelled as Lean lists, one record
type per table row; each Python function that reads or mutates the
database becomes a pure Lean function over a `DB` state.  Monetary
amounts (SQLite `REAL`) are modelled as `Rat`: the claims under study
involve only ordering, addition and subtraction, on which `Rat` and IEEE
doubles agree for the magnitudes the app handles.  bcrypt (an external
dependency, not repository code) is modelled by its documented contract:
`hashpw` yields a parseable salted hash, `checkpw` compares and raises
`ValueError: Invalid salt` when the stored value is not a parseable
bcrypt hash.
-/

/-- A stored credential string.  `hashed pw salt` stands for the output of
`bcrypt.hashpw(pw, gensalt())` (src/app.py:143-147); `malformed s` stands
for any string that is not a parseable bcrypt hash. -/
inductive CredStr where
  | hashed (pw : String) (salt : Nat)
  | malformed (s : String)
deriving DecidableEq

/-- Whether a credential is a well-formed bcrypt hash. -/
def CredStr.isHashed : CredStr → Bool
  | .hashed _ _ => true
  | .malformed _ => false

/-- Model of `bcrypt.checkpw`: on a well-formed hash it reports whether the
password matches (ignoring hash collisions); on a malformed stored value it
raises `ValueError("Invalid salt")`, modelled as `.error`. -/
def checkpw (password : String) (c : CredStr) : Except String Bool :=
  match c with
  | .hashed pw _ => .ok (password == pw)
  | .malformed _ => .error "Invalid salt"

/-- `hash_password` (src/app.py:143-147): bcrypt hash with a fresh salt; the
salt is passed explicitly here to model `gensalt()`'s nondeterminism. -/
def hash_password (password : String) (salt : Nat) : CredStr :=
  .hashed password salt

/-- `verify_password` (src/app.py:149-151): a bare call to `bcrypt.checkpw`
with no exception handling, so a malformed stored hash propagates bcrypt's
`ValueError`. -/
def verify_password (password : String) (hashed : CredStr) : Except String Bool :=
  checkpw password hashed

/-- A row of the `users` table (src/app.py:66-74). -/
structure User where
  id : Nat
  username : String
  password_hash : CredStr
  is_admin : Bool
deriving DecidableEq

/-- A row of the `transactions` table (src/app.py:77-89). -/
structure Txn where
  id : Nat
  user_id : Nat
  type : String
  amount : Rat
  category : String
  date : String
  note : String
deriving DecidableEq

/-- A row of the `budgets` table (src/app.py:92-101). -/
structure BudgetRow where
  user_id : Nat
  amount : Rat
deriving DecidableEq

/-- A row of the `categories` table (src/app.py:104-111). -/
structure Category where
  id : Nat
  name : String
  type : String
  is_default : Bool
deriving DecidableEq

/-- The database state: the four tables plus the AUTOINCREMENT counters
for the ids the model needs. -/
structure DB where
  users : List User
  transactions : List Txn
  budgets : List BudgetRow
  categories : List Category
  nextUserId : Nat
  nextTxnId : Nat
deriving DecidableEq

/-- `init_db` (src/app.py:60-140) on an empty database: the bootstrap
`admin` account (id 1, `is_admin = 1`, password `admin123`) and the 13
seeded default categories. -/
def initState : DB :=
  { users := [⟨1, "admin", hash_password "admin123" 0, true⟩]
    transactions := []
    budgets := []
    categories :=
      [⟨1, "Food", "expense", true⟩, ⟨2, "Transportation", "expense", true⟩,
       ⟨3, "Housing", "expense", true⟩, ⟨4, "Utilities", "expense", true⟩,
       ⟨5, "Entertainment", "expense", true⟩, ⟨6, "Healthcare", "expense", true⟩,
       ⟨7, "Shopping", "expense", true⟩, ⟨8, "Other", "expense", true⟩,
       ⟨9, "Salary", "income", true⟩, ⟨10, "Bonus", "income", true⟩,
       ⟨11, "Gift", "income", true⟩, ⟨12, "Investment", "income", true⟩,
       ⟨13, "Other", "income", true⟩]
    nextUserId := 2
    nextTxnId := 1 }

/-- Result of `register_user`: the Python function returns
`(False, "Username already exists!")` or `(True, user_id)`. -/
inductive RegResult where
  | err (msg : String)
  | ok (user_id : Nat)
deriving DecidableEq

/-- `register_user` (src/app.py:153-172): refuse when a row with the same
username exists (SQLite `=` on TEXT is case-sensitive), otherwise hash the
password and insert the new user. -/
def register_user (db : DB) (username password : String) (salt : Nat)
    (is_admin : Bool) : RegResult × DB :=
  if db.users.any (fun u => u.username == username) then
    (.err "Username already exists!", db)
  else
    (.ok db.nextUserId,
      { db with
          users := db.users ++ [⟨db.nextUserId, username,
            hash_password password salt, is_admin⟩]
          nextUserId := db.nextUserId + 1 })

/-- Result of `login_user`: `notFound` is the tuple
`(False, "Username not found!")`, `badPassword` is
`(False, "Incorrect password!", None)`, `success` is
`(True, user_id, is_admin)`. -/
inductive AuthResult where
  | notFound
  | badPassword
  | success (user_id : Nat) (is_admin : Bool)
deriving DecidableEq

/-- `login_user` (src/app.py:174-192): fetch the row for the username,
then check the password against the stored hash.  An exception from
`verify_password` (malformed stored hash) propagates. -/
def login_user (db : DB) (username password : String) :
    Except String AuthResult :=
  match db.users.find? (fun u => u.username == username) with
  | none => .ok .notFound
  | some u =>
    match verify_password password u.password_hash with
    | .ok true => .ok (.success u.id u.is_admin)
    | .ok false => .ok .badPassword
    | .error e => .error e

/-- `is_user_admin` (src/app.py:194-205): the stored flag, or `false` when
the id is unknown. -/
def is_user_admin (db : DB) (user_id : Nat) : Bool :=
  match db.users.find? (fun u => u.id == user_id) with
  | some u => u.is_admin
  | none => false

/-- `add_transaction` (src/app.py:208-220): unconditional INSERT — the
ledger itself performs no validation of the amount and returns `True`. -/
def add_transaction (db : DB) (user_id : Nat) (ttype : String) (amount : Rat)
    (category date note : String) : DB :=
  { db with
      transactions := db.transactions ++
        [⟨db.nextTxnId, user_id, ttype, amount, category, date, note⟩]
      nextTxnId := db.nextTxnId + 1 }

/-- Lexicographic order on strings, as comparison of their character
sequences (the order SQLite's `BETWEEN` and `ORDER BY` apply to TEXT, and
— for ISO `YYYY-MM-DD` / `YYYY-MM` keys — the calendar order pandas uses
after parsing). -/
def strLe (a b : String) : Prop := a.data ≤ b.data

instance : DecidableRel strLe :=
  fun a b => inferInstanceAs (Decidable (a.data ≤ b.data))

instance : IsTotal String strLe := ⟨fun a b => le_total a.data b.data⟩

instance : IsTrans String strLe :=
  ⟨fun _ _ _ hab hbc => le_trans (α := List Char) hab hbc⟩

/-- Descending-by-date order used by `get_transactions`
(`sort_values(by='date', ascending=False)`, src/app.py:249); on ISO
`YYYY-MM-DD` strings lexicographic order equals calendar order, so the
datetime sort of the source is string sort here. -/
def dateGE (a b : Txn) : Prop := strLe b.date a.date

instance : DecidableRel dateGE :=
  fun a b => inferInstanceAs (Decidable (strLe b.date a.date))

instance : IsTotal Txn dateGE := ⟨fun a b => le_total b.date.data a.date.data⟩

instance : IsTrans Txn dateGE :=
  ⟨fun _ _ _ hab hbc => le_trans (α := List Char) hbc hab⟩

/-- Python truthiness of an optional string (`if start_date and end_date`,
src/app.py:240): `None` and the empty string are falsy. -/
def py_truthy : Option String → Bool
  | none => false
  | some s => s != ""

/-- `get_transactions` (src/app.py:222-251), `all_users=False` branch:
the user's rows, filtered by `date BETWEEN start AND end` (inclusive,
lexicographic on the TEXT column) when both bounds are truthy, then
sorted by date descending. -/
def get_transactions (db : DB) (user_id : Nat)
    (start_date end_date : Option String) : List Txn :=
  let base := db.transactions.filter (fun t => t.user_id == user_id)
  let rows :=
    if py_truthy start_date && py_truthy end_date then
      base.filter (fun t =>
        decide (strLe (start_date.getD "") t.date) && decide (strLe t.date (end_date.getD "")))
    else base
  List.insertionSort dateGE rows

/-- `set_budget` (src/app.py:253-268): upsert keyed by `user_id`. -/
def set_budget (db : DB) (user_id : Nat) (amount : Rat) : DB :=
  if db.budgets.any (fun b => b.user_id == user_id) then
    { db with budgets := db.budgets.map (fun b =>
        if b.user_id == user_id then { b with amount := amount } else b) }
  else
    { db with budgets := db.budgets ++ [⟨user_id, amount⟩] }

/-- `get_budget` (src/app.py:270-281): the stored amount, or `None`. -/
def get_budget (db : DB) (user_id : Nat) : Option Rat :=
  (db.budgets.find? (fun b => b.user_id == user_id)).map (·.amount)

/-- `delete_transaction` (src/app.py:283-292): unconditional DELETE by id. -/
def delete_transaction (db : DB) (transaction_id : Nat) : DB :=
  { db with transactions := db.transactions.filter (fun t => t.id != transaction_id) }

/-- `delete_user` (src/app.py:314-330): three DELETEs (transactions,
budget, user row) issued on one connection under one final `commit`, so
the cascade is a single atomic state change, modelled as one function. -/
def delete_user (db : DB) (user_id : Nat) : DB :=
  { db with
      transactions := db.transactions.filter (fun t => t.user_id != user_id)
      budgets := db.budgets.filter (fun b => b.user_id != user_id)
      users := db.users.filter (fun u => u.id != user_id) }

/-- `toggle_admin_status` (src/app.py:332-341): unconditional
`UPDATE users SET is_admin = ? WHERE id = ?` — no guard for any account. -/
def toggle_admin_status (db : DB) (user_id : Nat) (is_admin : Bool) : DB :=
  { db with users := db.users.map (fun u =>
      if u.id == user_id then { u with is_admin := is_admin } else u) }

/-- The admin-panel guard (src/app.py:893): the toggle-admin and delete
controls are rendered only for rows whose username is not `'admin'`. -/
def admin_panel_can_modify (row : User) : Bool :=
  row.username != "admin"

/-- Order `ORDER BY type, name` used by `get_categories` with no type
argument (src/app.py:351). -/
def catOrder (a b : Category) : Prop :=
  a.type.data < b.type.data ∨ (a.type = b.type ∧ strLe a.name b.name)

instance : DecidableRel catOrder := fun a b => by
  unfold catOrder strLe; infer_instance

/-- `get_categories` (src/app.py:343-355) with no type filter: all
categories ordered by type then name. -/
def get_categories (db : DB) : List Category :=
  List.insertionSort catOrder db.categories

/-- `delete_category` (src/app.py:374-391): refuse when the row exists and
its default flag is set; otherwise — the unknown-id case included — issue
the DELETE and report `(True, "Category deleted successfully!")`. -/
def delete_category (db : DB) (category_id : Nat) : (Bool × String) × DB :=
  match db.categories.find? (fun c => c.id == category_id) with
  | some c =>
    if c.is_default then
      ((false, "Cannot delete default categories!"), db)
    else
      ((true, "Category deleted successfully!"),
        { db with categories := db.categories.filter (fun c => c.id != category_id) })
  | none =>
    ((true, "Category deleted successfully!"),
      { db with categories := db.categories.filter (fun c => c.id != category_id) })

/-- The dashboard's Add-Transaction submit handler (src/app.py:586-597):
refuse with an error when `amount <= 0`, otherwise call `add_transaction`. -/
def dashboard_add_submit (db : DB) (user_id : Nat) (ttype : String)
    (amount : Rat) (category date note : String) : Except String DB :=
  if amount ≤ 0 then .error "Amount must be greater than zero!"
  else .ok (add_transaction db user_id ttype amount category date note)

/-- Budget status shown on the dashboard. -/
inductive BudgetStatus where
  | overBy (a : Rat)
  | remaining (a : Rat)
deriving DecidableEq

/-- The dashboard's budget check (src/app.py:548, 560-563):
`if budget and total_expenses > budget: ... elif budget: ...` — Python
truthiness makes both `None` and a stored value of `0` fall through to no
status at all. -/
def budget_status (total_expenses : Rat) (budget : Option Rat) :
    Option BudgetStatus :=
  match budget with
  | none => none
  | some b =>
    if b ≠ 0 ∧ total_expenses > b then some (.overBy (total_expenses - b))
    else if b ≠ 0 then some (.remaining (b - total_expenses))
    else none

/-- `strftime('%Y-%m')` of a parsed ISO `YYYY-MM-DD` date string
(src/app.py:829): its first seven characters. -/
def txn_month (t : Txn) : String := t.date.take 7

/-- Sum of the amounts of the rows of the given type in the given month
(the `groupby(['month','type'])['amount'].sum()` cell, src/app.py:832;
`fillna(0)` / the column-insertion fallback make a missing cell 0). -/
def month_type_sum (txs : List Txn) (ttype month : String) : Rat :=
  ((txs.filter (fun t => t.type == ttype && txn_month t == month)).map
    (·.amount)).sum

/-- The monthly-trend pivot (src/app.py:827-842): one row per distinct
month key, months ascending (pandas `groupby`/`pivot` sort the keys),
with the income and expense sums and 0 where a (month, kind) cell is
empty. -/
def monthlyTrend (txs : List Txn) : List (String × Rat × Rat) :=
  (List.insertionSort strLe (txs.map txn_month).dedup).map
    (fun m => (m, month_type_sum txs "income" m, month_type_sum txs "expense" m))

/-- Fold of a sequence of `register_user` calls
(username, password, salt, is_admin). -/
def applyRegisters (db : DB) (calls : List (String × String × Nat × Bool)) : DB :=
  calls.foldl (fun d c => (register_user d c.1 c.2.1 c.2.2.1 c.2.2.2).2) db

/-! ## Helper lemmas -/

/-- Splitting a list by a Boolean predicate splits its length. -/
theorem length_filter_split {α : Type} (p : α → Bool) (l : List α) :
    (l.filter (fun a => !(p a))).length + (l.filter p).length = l.length := by
  induction l with
  | nil => rfl
  | cons a t ih => cases h : p a <;> simp [List.filter_cons, h] <;> omega

/-! ## Claim theorems -/

/-- Claim C2: for every user id, `delete_user` removes exactly that user's
transactions, budget rows and user row, leaves every other row of each
table unchanged, and the total transaction count decreases by exactly the
number of transactions that user owned.  The three deletions share one
connection and one final commit (src/app.py:320-328), so the cascade is a
single atomic state change with no partially-cascaded intermediate state. -/
theorem delete_user_cascades (db : DB) (uid : Nat) :
    (∀ t, t ∈ (delete_user db uid).transactions ↔
        t ∈ db.transactions ∧ t.user_id ≠ uid) ∧
    (∀ b, b ∈ (delete_user db uid).budgets ↔
        b ∈ db.budgets ∧ b.user_id ≠ uid) ∧
    (∀ u, u ∈ (delete_user db uid).users ↔
        u ∈ db.users ∧ u.id ≠ uid) ∧
    (delete_user db uid).transactions.length =
      db.transactions.length -
        (db.transactions.filter (fun t => t.user_id == uid)).length := by
  refine ⟨?_, ?_, ?_, ?_⟩
  · intro t; simp [delete_user, List.mem_filter]
  · intro b; simp [delete_user, List.mem_filter]
  · intro u; simp [delete_user, List.mem_filter]
  · have h := length_filter_split (fun t : Txn => t.user_id == uid) db.transactions
    simp only [delete_user, bne]
    omega

/-- Claim C5 counterexample: on a malformed stored credential,
`verify_password` does not return `false` — it propagates bcrypt's
`ValueError: Invalid salt`, since src/app.py:149-151 has no exception
handling around `bcrypt.checkpw`. -/
theorem verify_password_malformed_raises :
    verify_password "password" (.malformed "notahash") = .error "Invalid salt" ∧
    verify_password "password" (.malformed "notahash") ≠ .ok false := by
  refine ⟨rfl, ?_⟩
  simp [verify_password, checkpw]

/-- Claim C5 (amended): on a credential produced by `hash_password`,
`verify_password` returns the Boolean comparison result and never throws;
on a malformed credential it raises (propagates bcrypt's
`ValueError: Invalid salt`) instead of returning `false`. -/
theorem verify_password_spec (p pw : String) (salt : Nat) (s : String) :
    verify_password p (hash_password pw salt) = .ok (p == pw) ∧
    verify_password p (.malformed s) = .error "Invalid salt" :=
  ⟨rfl, rfl⟩

/-- Claim C6 counterexample: the ledger itself accepts a non-positive
amount — `add_transaction` with amount −5 stores the row, so the ledger
does not reject non-positive amounts with any error. -/
theorem add_transaction_nonpositive_stored :
    ((add_transaction initState 1 "expense" (-5) "Food" "2024-01-05"
        "").transactions.filter (fun t => decide (t.amount ≤ 0))).length = 1 := by
  decide

/-- Claim C6 (amended): `add_transaction` is an unconditional INSERT that
stores the row whatever the amount; the validation lives in the dashboard
submit handler, which refuses `amount <= 0` with an error (and state
unchanged) and only calls `add_transaction` for positive amounts. -/
theorem add_transaction_and_dashboard_guard (db : DB) (uid : Nat)
    (ty : String) (amt : Rat) (cat d n : String) :
    (Txn.mk db.nextTxnId uid ty amt cat d n ∈
        (add_transaction db uid ty amt cat d n).transactions) ∧
    (amt ≤ 0 → dashboard_add_submit db uid ty amt cat d n =
        .error "Amount must be greater than zero!") ∧
    (0 < amt → dashboard_add_submit db uid ty amt cat d n =
        .ok (add_transaction db uid ty amt cat d n)) := by
  refine ⟨?_, ?_, ?_⟩
  · simp [add_transaction]
  · intro h; simp [dashboard_add_submit, h]
  · intro h; simp [dashboard_add_submit, not_le.mpr h]

/-- Claim C9 counterexample: a budget can be set to 0, and then — because
`if budget:` is falsy for a stored 0 just as for `None`
(src/app.py:560-563) — the dashboard shows no budget status even though a
budget is set and the expenses exceed it, contradicting both the
`overBy` clause and the claim that `None` occurs exactly when no budget
is set. -/
theorem budget_status_zero_budget_cex :
    get_budget (set_budget initState 1 0) 1 = some 0 ∧
    (5 : Rat) > 0 ∧
    budget_status 5 (get_budget (set_budget initState 1 0) 1) = none := by
  decide

/-- Claim C9 (amended): with a nonzero budget set, the status is `overBy`
when expenses exceed the budget and `remaining` otherwise; the status is
`None` when no budget is set, and also when the stored budget is 0 (Python
truthiness conflates a stored 0 with `None`). -/
theorem budget_status_spec (db : DB) (uid : Nat) (te b : Rat) :
    (get_budget db uid = none → budget_status te (get_budget db uid) = none) ∧
    (get_budget db uid = some b → b ≠ 0 → te > b →
      budget_status te (get_budget db uid) = some (.overBy (te - b))) ∧
    (get_budget db uid = some b → b ≠ 0 → te ≤ b →
      budget_status te (get_budget db uid) = some (.remaining (b - te))) ∧
    (get_budget db uid = some 0 → budget_status te (get_budget db uid) = none) := by
  refine ⟨?_, ?_, ?_, ?_⟩
  · intro h; rw [h]; rfl
  · intro h hb hlt; rw [h]; simp [budget_status, hb, hlt]
  · intro h hb hle; rw [h]; simp [budget_status, hb, not_lt.mpr hle]
  · intro h; rw [h]; simp [budget_status]

/-- After the unconditional UPDATE of `toggle_admin_status`, looking up any
present user id reports the written flag. -/
theorem toggle_find (uid : Nat) (v : Bool) (l : List User)
    (h : ∃ u ∈ l, u.id = uid) :
    ((l.map (fun u => if u.id == uid then { u with is_admin := v } else u)).find?
      (fun u => u.id == uid)).map (·.is_admin) = some v := by
  induction l with
  | nil => simp at h
  | cons a t ih =>
    obtain ⟨u, hu, huid⟩ := h
    by_cases ha : a.id = uid
    · simp [List.find?, ha]
    · rcases List.mem_cons.mp hu with rfl | hmem
      · exact absurd huid ha
      · have hrec := ih ⟨u, hmem, huid⟩
        simpa [List.find?_cons, ha] using hrec

/-- Claim C1 counterexample: starting from first initialization, the core
operations demote and delete the bootstrap admin — `toggle_admin_status`
overwrites its flag and `delete_user` removes its row; neither refuses. -/
theorem bootstrap_admin_unprotected :
    is_user_admin initState 1 = true ∧
    is_user_admin (toggle_admin_status initState 1 false) 1 = false ∧
    (delete_user initState 1).users = [] := by
  decide

/-- Claim C1 (amended): `toggle_admin_status` overwrites the admin flag of
every existing user id — the bootstrap admin included — and `delete_user`
removes any user row, the bootstrap admin included; the only refusal is in
the admin-panel caller, which skips rendering the toggle and delete
controls for rows whose username is `'admin'` (src/app.py:893), so the
bootstrap admin's protection is a property of that one caller, not of
the operations. -/
theorem toggle_admin_and_delete_unguarded (db : DB) (uid : Nat) (v : Bool) :
    ((∃ u ∈ db.users, u.id = uid) →
      is_user_admin (toggle_admin_status db uid v) uid = v) ∧
    (∀ u ∈ (delete_user db uid).users, u.id ≠ uid) ∧
    (∀ u : User, u.username = "admin" → admin_panel_can_modify u = false) := by
  refine ⟨?_, ?_, ?_⟩
  · intro h
    have hf := toggle_find uid v db.users h
    unfold is_user_admin toggle_admin_status
    obtain ⟨u, hu, hadm⟩ := Option.map_eq_some'.mp hf
    simp only [hu, hadm]
  · intro u hu
    have := (List.mem_filter.mp hu).2
    simpa using this
  · intro u hu
    simp [admin_panel_can_modify, hu]

/-- A `register_user` call preserves distinctness of usernames. -/
theorem register_user_preserves_nodup (db : DB) (uname pw : String)
    (salt : Nat) (adm : Bool)
    (h : (db.users.map (·.username)).Nodup) :
    (((register_user db uname pw salt adm).2).users.map (·.username)).Nodup := by
  unfold register_user
  by_cases hdup : db.users.any (fun u => u.username == uname)
  · simpa [hdup] using h
  · have hno : ∀ u ∈ db.users, u.username ≠ uname := by
      intro u hu
      have := (List.any_eq_true.not.mp hdup)
      push_neg at this
      simpa using this u hu
    simp only [hdup, if_neg, Bool.false_eq_true, not_false_iff, List.map_append]
    rw [List.nodup_append]
    refine ⟨h, by simp, ?_⟩
    intro x hx
    obtain ⟨u, hu, rfl⟩ := List.mem_map.mp hx
    simp [hno u hu]

/-- Folding any sequence of `register_user` calls preserves distinctness
of usernames. -/
theorem applyRegisters_nodup (calls : List (String × String × Nat × Bool)) :
    ∀ db : DB, (db.users.map (·.username)).Nodup →
      (((applyRegisters db calls).users.map (·.username)).Nodup) := by
  induction calls with
  | nil => intro db h; simpa [applyRegisters] using h
  | cons c rest ih =>
    intro db h
    have step := register_user_preserves_nodup db c.1 c.2.1 c.2.2.1 c.2.2.2 h
    simpa [applyRegisters] using ih _ step

/-- Claim C3: registering an already-present username (case-sensitive exact
match) returns the duplicate error and leaves the whole registry — the
existing user's stored credential included — unchanged; consequently every
sequence of register calls starting from first initialization keeps all
usernames pairwise distinct. -/
theorem register_user_duplicate_and_unique :
    (∀ (db : DB) (uname pw : String) (salt : Nat) (adm : Bool),
      (∃ u ∈ db.users, u.username = uname) →
        register_user db uname pw salt adm = (.err "Username already exists!", db)) ∧
    (∀ calls : List (String × String × Nat × Bool),
      ((applyRegisters initState calls).users.map (·.username)).Nodup) := by
  constructor
  · intro db uname pw salt adm ⟨u, hu, hname⟩
    unfold register_user
    rw [if_pos (List.any_eq_true.mpr ⟨u, hu, by simp [hname]⟩)]
  · intro calls
    exact applyRegisters_nodup calls initState (by decide)

/-- Claim C4: over a registry whose stored credentials are well-formed
hashes (as produced by `register_user` and `init_db`), `login_user` has
exactly three outcomes — `notFound` when no user has the username,
`badPassword` when the user exists but the password does not verify
against the stored credential, and `success` carrying the matching user's
id and admin flag when it does verify. -/
theorem login_user_trichotomy (db : DB) (username password : String)
    (hwf : ∀ u ∈ db.users, u.password_hash.isHashed = true) :
    (db.users.find? (fun u => u.username == username) = none ∧
      (∀ u ∈ db.users, u.username ≠ username) ∧
      login_user db username password = .ok .notFound) ∨
    (∃ u, db.users.find? (fun u => u.username == username) = some u ∧
      verify_password password u.password_hash = .ok false ∧
      login_user db username password = .ok .badPassword) ∨
    (∃ u, db.users.find? (fun u => u.username == username) = some u ∧
      verify_password password u.password_hash = .ok true ∧
      login_user db username password = .ok (.success u.id u.is_admin)) := by
  cases hf : db.users.find? (fun u => u.username == username) with
  | none =>
    left
    refine ⟨rfl, ?_, ?_⟩
    · intro u hu
      have := List.find?_eq_none.mp hf u hu
      simpa using this
    · unfold login_user
      rw [hf]
  | some u =>
    have hmem : u ∈ db.users := List.mem_of_find?_eq_some hf
    have hh := hwf u hmem
    cases hc : u.password_hash with
    | malformed s => rw [hc] at hh; simp [CredStr.isHashed] at hh
    | hashed pw salt =>
      by_cases hp : password = pw
      · right; right
        refine ⟨u, rfl, ?_, ?_⟩
        · simp [verify_password, checkpw, hc, hp]
        · unfold login_user
          rw [hf]
          simp [verify_password, checkpw, hc, hp]
      · right; left
        have hb : (password == pw) = false := beq_eq_false_iff_ne.mpr hp
        refine ⟨u, rfl, ?_, ?_⟩
        · simp [verify_password, checkpw, hc, hb]
        · unfold login_user
          rw [hf]
          simp [verify_password, checkpw, hc, hb]

/-- Claim C4 witness: the trichotomy instantiated at the freshly
initialized registry and the bootstrap admin's correct credentials. -/
theorem login_user_trichotomy_witness :
    (initState.users.find? (fun u => u.username == "admin") = none ∧
      (∀ u ∈ initState.users, u.username ≠ "admin") ∧
      login_user initState "admin" "admin123" = .ok .notFound) ∨
    (∃ u, initState.users.find? (fun u => u.username == "admin") = some u ∧
      verify_password "admin123" u.password_hash = .ok false ∧
      login_user initState "admin" "admin123" = .ok .badPassword) ∨
    (∃ u, initState.users.find? (fun u => u.username == "admin") = some u ∧
      verify_password "admin123" u.password_hash = .ok true ∧
      login_user initState "admin" "admin123" = .ok (.success u.id u.is_admin)) :=
  login_user_trichotomy initState "admin" "admin123" (by decide)

/-- Claim C8 counterexample: deleting a category id that does not exist
(id 99 right after initialization) does not return a not-found error: the
code reports `(True, "Category deleted successfully!")` and leaves the
catalog unchanged. -/
theorem delete_category_unknown_id_succeeds :
    (∀ c ∈ initState.categories, c.id ≠ 99) ∧
    delete_category initState 99 =
      ((true, "Category deleted successfully!"), initState) := by
  decide

/-- Claim C8 (amended): deleting a category whose default flag is set
returns the cannot-delete-default error and leaves the catalog unchanged;
deleting an existing non-default category reports success and removes it,
so a subsequent listing omits it; deleting an id no category has also
reports success (there is no not-found error) and leaves the catalog
unchanged. -/
theorem delete_category_spec (db : DB) (cid : Nat) :
    (∀ c, db.categories.find? (fun c => c.id == cid) = some c →
      c.is_default = true →
      delete_category db cid = ((false, "Cannot delete default categories!"), db)) ∧
    (∀ c, db.categories.find? (fun c => c.id == cid) = some c →
      c.is_default = false →
      (delete_category db cid).1 = (true, "Category deleted successfully!") ∧
      (∀ c' ∈ get_categories (delete_category db cid).2, c'.id ≠ cid) ∧
      (∀ c' ∈ db.categories, c'.id ≠ cid →
        c' ∈ (delete_category db cid).2.categories)) ∧
    (db.categories.find? (fun c => c.id == cid) = none →
      delete_category db cid = ((true, "Category deleted successfully!"), db)) := by
  refine ⟨?_, ?_, ?_⟩
  · intro c hf hd
    unfold delete_category
    rw [hf]
    simp [hd]
  · intro c hf hd
    have h2 : (delete_category db cid).2.categories =
        db.categories.filter (fun c => c.id != cid) := by
      unfold delete_category
      rw [hf]
      simp [hd]
    refine ⟨?_, ?_, ?_⟩
    · unfold delete_category
      rw [hf]
      simp [hd]
    · intro c' hc'
      have hmem := (List.perm_insertionSort catOrder _).mem_iff.mp hc'
      rw [h2] at hmem
      have := (List.mem_filter.mp hmem).2
      simpa using this
    · intro c' hc' hne
      rw [h2]
      exact List.mem_filter.mpr ⟨hc', by simpa using hne⟩
  · intro hf
    have hall : ∀ c ∈ db.categories, c.id ≠ cid := by
      intro c hc
      have := List.find?_eq_none.mp hf c hc
      simpa using this
    have : db.categories.filter (fun c => c.id != cid) = db.categories :=
      List.filter_eq_self.mpr (fun c hc => by simpa using hall c hc)
    unfold delete_category
    rw [hf]
    simp [this]

/-- Claim C7: with a date range whose two bounds are given (nonempty ISO
date strings), `get_transactions` returns exactly the rows owned by the
user whose date lies lexicographically in the inclusive range, sorted by
date descending, and the empty list — not an error — when no row
matches. -/
theorem get_transactions_spec (db : DB) (uid : Nat) (s e : String)
    (hs : s ≠ "") (he : e ≠ "") :
    (∀ t, t ∈ get_transactions db uid (some s) (some e) ↔
      t ∈ db.transactions ∧ t.user_id = uid ∧ strLe s t.date ∧ strLe t.date e) ∧
    List.Sorted dateGE (get_transactions db uid (some s) (some e)) ∧
    ((∀ t ∈ db.transactions, ¬(t.user_id = uid ∧ strLe s t.date ∧ strLe t.date e)) →
      get_transactions db uid (some s) (some e) = []) := by
  have hts : (py_truthy (some s) && py_truthy (some e)) = true := by
    simp [py_truthy, hs, he]
  have hmem : ∀ t, t ∈ get_transactions db uid (some s) (some e) ↔
      t ∈ db.transactions ∧ t.user_id = uid ∧ strLe s t.date ∧ strLe t.date e := by
    intro t
    unfold get_transactions
    rw [hts]
    simp only [if_true]
    rw [(List.perm_insertionSort dateGE _).mem_iff]
    simp only [List.mem_filter, Bool.and_eq_true, decide_eq_true_eq, beq_iff_eq]
    tauto
  refine ⟨hmem, ?_, ?_⟩
  · unfold get_transactions
    rw [hts]
    simp only [if_true]
    exact List.sorted_insertionSort dateGE _
  · intro h
    rw [List.eq_nil_iff_forall_not_mem]
    intro t ht
    obtain ⟨h1, h2⟩ := (hmem t).mp ht
    exact h t h1 h2

/-- Claim C7 witness: the characterization instantiated at a ledger with
one stored transaction and the range 2024-01-01 .. 2024-12-31. -/
theorem get_transactions_spec_witness :
    ((⟨1, 1, "expense", 5, "Food", "2024-01-05", ""⟩ : Txn) ∈
      get_transactions (add_transaction initState 1 "expense" 5 "Food" "2024-01-05" "")
        1 (some "2024-01-01") (some "2024-12-31")) ↔
    ((⟨1, 1, "expense", 5, "Food", "2024-01-05", ""⟩ : Txn) ∈
        (add_transaction initState 1 "expense" 5 "Food" "2024-01-05" "").transactions ∧
      (1 : Nat) = 1 ∧ strLe "2024-01-01" "2024-01-05" ∧
      strLe "2024-01-05" "2024-12-31") :=
  (get_transactions_spec
    (add_transaction initState 1 "expense" 5 "Food" "2024-01-05" "")
    1 "2024-01-01" "2024-12-31" (by decide) (by decide)).1
    ⟨1, 1, "expense", 5, "Food", "2024-01-05", ""⟩

/-- A (month, kind) cell with no matching transactions sums to 0. -/
theorem month_type_sum_eq_zero (txs : List Txn) (ty m : String)
    (h : ∀ t ∈ txs, ¬(t.type = ty ∧ txn_month t = m)) :
    month_type_sum txs ty m = 0 := by
  unfold month_type_sum
  have hnil : txs.filter (fun t => t.type == ty && txn_month t == m) = [] :=
    List.filter_eq_nil_iff.mpr (fun t ht => by simpa using h t ht)
  rw [hnil]
  rfl

/-- Claim C10: `monthlyTrend` yields one row per distinct `YYYY-MM` month
occurring in the input, in ascending month order, whose second and third
components are the month's income and expense sums; a month with rows of
only one kind gets 0 for the other kind. -/
theorem monthlyTrend_spec (txs : List Txn) :
    List.Sorted strLe ((monthlyTrend txs).map Prod.fst) ∧
    ((monthlyTrend txs).map Prod.fst).Nodup ∧
    (∀ m, m ∈ (monthlyTrend txs).map Prod.fst ↔ ∃ t ∈ txs, txn_month t = m) ∧
    (∀ p ∈ monthlyTrend txs,
      p.2.1 = month_type_sum txs "income" p.1 ∧
      p.2.2 = month_type_sum txs "expense" p.1) ∧
    (∀ p ∈ monthlyTrend txs,
      (∀ t ∈ txs, ¬(t.type = "income" ∧ txn_month t = p.1)) → p.2.1 = 0) ∧
    (∀ p ∈ monthlyTrend txs,
      (∀ t ∈ txs, ¬(t.type = "expense" ∧ txn_month t = p.1)) → p.2.2 = 0) := by
  have hcomp : ∀ p ∈ monthlyTrend txs,
      p.2.1 = month_type_sum txs "income" p.1 ∧
      p.2.2 = month_type_sum txs "expense" p.1 := by
    intro p hp
    obtain ⟨m, _, rfl⟩ := List.mem_map.mp hp
    exact ⟨rfl, rfl⟩
  have hfst : (monthlyTrend txs).map Prod.fst =
      List.insertionSort strLe (txs.map txn_month).dedup := by
    unfold monthlyTrend
    rw [List.map_map]
    have hid : (Prod.fst ∘ fun m : String =>
        (m, month_type_sum txs "income" m, month_type_sum txs "expense" m)) = id := rfl
    rw [hid, List.map_id]
  refine ⟨?_, ?_, ?_, hcomp, ?_, ?_⟩
  · rw [hfst]
    exact List.sorted_insertionSort strLe _
  · rw [hfst]
    exact ((List.perm_insertionSort strLe _).nodup_iff).mpr (List.nodup_dedup _)
  · intro m
    rw [hfst, (List.perm_insertionSort strLe _).mem_iff]
    simp [List.mem_dedup, List.mem_map]
  · intro p hp h
    rw [(hcomp p hp).1]
    exact month_type_sum_eq_zero txs "income" p.1 h
  · intro p hp h
    rw [(hcomp p hp).2]
    exact month_type_sum_eq_zero txs "expense" p.1 h
